import Mathlib

/-!
# Verification of the MovieDiscovery app's favorites store and navigation controller

Shallow embedding of the stateful core of `src/App.jsx` (and the duplicated
variants in the same file) and `src/pages/MovieDetails.jsx`: the favorites
list with its toggle operation, the localStorage-backed initialization and
persistence effect, and the page-navigation handlers.
-/

set_option autoImplicit false

namespace MovieDiscovery

/-- A movie record as handled by the app (the fields the repository reads from
the TMDb JSON payloads and stores in the favorites list; only `id` is ever
compared). -/
structure Movie where
  id : Int
  title : String
  poster_path : Option String
deriving DecidableEq, Repr

/-- `favorites.some((fav) => fav.id === id)` — the membership test used at
`App.jsx` line 64 (`isAlreadyFavorite`) and line 161 (`isFavorite` prop). -/
def isFavorite (favorites : List Movie) (id : Int) : Bool :=
  favorites.any (fun fav => fav.id == id)

/-- `handleToggleFavorite` (`App.jsx` lines 61–74): if the movie's id is
already present, filter out every entry with that id; otherwise append the
movie to the end of the list. -/
def handleToggleFavorite (movieToToggle : Movie) (prevFavorites : List Movie) : List Movie :=
  let isAlreadyFavorite := prevFavorites.any (fun fav => fav.id == movieToToggle.id)
  if isAlreadyFavorite then
    prevFavorites.filter (fun fav => fav.id != movieToToggle.id)
  else
    prevFavorites ++ [movieToToggle]

/-- App-level state held by the `App` component: `currentPage` (a string tag,
`'home' | 'detail' | 'favorites'` in variant 1), `selectedMovieId`
(`null` initially), and the `favorites` list. -/
structure AppState where
  currentPage : String
  selectedMovieId : Option Int
  favorites : List Movie

/-- `handleSelectMovie` (`App.jsx` lines 44–47): set the selected id, go to
the detail page. -/
def handleSelectMovie (id : Int) (s : AppState) : AppState :=
  { s with selectedMovieId := some id, currentPage := "detail" }

/-- `handleBackToHome` (`App.jsx` lines 50–53): clear the selected id, go
home. -/
def handleBackToHome (s : AppState) : AppState :=
  { s with selectedMovieId := none, currentPage := "home" }

/-- `handleGoToFavorites` (`App.jsx` lines 56–58): go to the favorites page;
nothing else is touched. -/
def handleGoToFavorites (s : AppState) : AppState :=
  { s with currentPage := "favorites" }

/-- `navigateToHome` in the duplicated second `App` variant (`App.jsx` lines
196–198): only sets the page tag; the selected id is NOT cleared. -/
def navigateToHome (s : AppState) : AppState :=
  { s with currentPage := "home" }

/-- `handleToggleFavorite` lifted to the app state: the handler calls only
`setFavorites`, so the page tag and selected id are untouched. -/
def appToggleFavorite (m : Movie) (s : AppState) : AppState :=
  { s with favorites := handleToggleFavorite m s.favorites }

/-- The initial navigation state: `useState('home')`, `useState(null)`,
favorites from an empty storage (`[]`). -/
def initState : AppState :=
  { currentPage := "home", selectedMovieId := none, favorites := [] }

/-- A concrete state of the second `App` variant sitting on the detail page
of movie 7 (its detail page tag is the string `'movieDetails'`). -/
def detailState7 : AppState :=
  { currentPage := "movieDetails", selectedMovieId := some 7, favorites := [] }

/-- The uniqueness invariant on the favorites list: no two entries share an
identifier. -/
def UniqueIds (favorites : List Movie) : Prop :=
  (favorites.map Movie.id).Nodup

instance (favorites : List Movie) : Decidable (UniqueIds favorites) := by
  unfold UniqueIds; infer_instance

/-- JavaScript truthiness of the `selectedMovieId` value: `null` and `0` are
falsy, every other number is truthy. -/
def truthyId : Option Int → Bool
  | none => false
  | some n => n != 0

/-- The render guard `currentPage === 'detail' && selectedMovieId`
(`App.jsx` line 156): `MovieDetail` is mounted only when this holds. -/
def detailRendered (s : AppState) : Bool :=
  (s.currentPage == "detail") && truthyId s.selectedMovieId

/-- The fetch guard `if (movieId) { fetchMovieDetails(); }` in
`MovieDetail`'s effect (`MovieDetails.jsx` lines 57–59): the detail fetch is
issued only for a truthy `movieId` prop. -/
def movieDetailFetchIssued (movieId : Int) : Bool :=
  movieId != 0

/-- The fixed localStorage key for the favorites list. -/
def movieFavoritesKey : String := "movieFavorites"

/-- Outcome of running the persistence effect: the in-memory favorites, the
key-value store afterwards, and whether an exception escaped the effect. -/
structure PersistOutcome where
  favorites : List Movie
  kv : String → Option String
  raised : Bool

/-- The persistence effect (`App.jsx` lines 27–33):
`try { localStorage.setItem('movieFavorites', JSON.stringify(favorites)) }
catch (error) { console.error(...) }`. `stringify` stands for
`JSON.stringify`; `writeFails` models whether `setItem` throws (an
environmental condition such as a quota error). The catch swallows the
failure, so no exception escapes and the in-memory list is never touched. -/
def persistFavorites (stringify : List Movie → String) (favs : List Movie)
    (kv : String → Option String) (writeFails : Bool) : PersistOutcome :=
  if writeFails then
    { favorites := favs, kv := kv, raised := false }
  else
    { favorites := favs,
      kv := fun k => if k = movieFavoritesKey then some (stringify favs) else kv k,
      raised := false }

/-- A JSON value: the result type of `JSON.parse`, which can be of any JSON
shape, not only an array. -/
inductive JsValue where
  | null : JsValue
  | bool : Bool → JsValue
  | num : Int → JsValue
  | str : String → JsValue
  | arr : List JsValue → JsValue
  | obj : List (String × JsValue) → JsValue

/-- Modelled from the spec: the expected serialized form of a Favorites
Store is "a JSON array of MovieSummary-shaped objects" — at the very least
the stored JSON value must be an array. -/
def isJsonArray : JsValue → Bool
  | JsValue.arr _ => true
  | _ => false

/-- The favorites `useState` initializer (`App.jsx` lines 16–24):
`const storedFavorites = localStorage.getItem('movieFavorites');
return storedFavorites ? JSON.parse(storedFavorites) : [];` wrapped in a
try/catch that returns `[]` on error. `parse` stands for `JSON.parse`
(erroring exactly when it would throw); a falsy stored value (`null`, i.e.
`none`, or the empty string) yields `[]`, a parse error is caught and yields
`[]`, and a successful parse returns the parsed value unvalidated. -/
def favoritesInit (parse : String → Except String JsValue)
    (stored : Option String) : JsValue :=
  match stored with
  | none => JsValue.arr []
  | some s =>
    if s = "" then JsValue.arr []
    else
      match parse s with
      | Except.ok v => v
      | Except.error _ => JsValue.arr []

/-- Modelled from the spec: a fragment of `JSON.parse`'s behavior on the
inputs used below — the numeral `"5"` parses to the JSON number 5, and any
other input considered here (such as `"not valid json"`) raises a
SyntaxError. -/
def jsonParseEnv : String → Except String JsValue := fun s =>
  if s = "5" then Except.ok (JsValue.num 5) else Except.error "SyntaxError"

/-- Toggling negates membership of the toggled id, for any favorites list. -/
theorem isFavorite_handleToggleFavorite (favs : List Movie) (m : Movie) :
    isFavorite (handleToggleFavorite m favs) m.id = !isFavorite favs m.id := by
  by_cases h : isFavorite favs m.id = true
  · have hdef : handleToggleFavorite m favs = favs.filter (fun fav => fav.id != m.id) := by
      simp only [handleToggleFavorite, isFavorite] at *
      rw [if_pos h]
    rw [hdef, h, Bool.not_true]
    simp only [isFavorite, List.any_eq_false]
    intro fav hfav
    have hmem := List.of_mem_filter hfav
    simpa using hmem
  · have hb : isFavorite favs m.id = false := by
      cases hx : isFavorite favs m.id
      · rfl
      · exact absurd hx h
    have hdef : handleToggleFavorite m favs = favs ++ [m] := by
      simp only [handleToggleFavorite, isFavorite] at *
      rw [if_neg]
      rw [hb]
      simp
    rw [hdef, hb, Bool.not_false]
    simp [isFavorite]

/-- C1: `toggle(m)` removes the entry with id `m.id` when `isFavorite(m.id)`
held before the call and appends `m` as a new entry otherwise; in both cases
`isFavorite(m.id)` afterwards equals the negation of its pre-call value. -/
theorem toggle_spec (favs : List Movie) (m : Movie) :
    isFavorite (handleToggleFavorite m favs) m.id = !isFavorite favs m.id
    ∧ handleToggleFavorite m favs =
        (if isFavorite favs m.id then favs.filter (fun fav => fav.id != m.id)
         else favs ++ [m]) := by
  refine ⟨isFavorite_handleToggleFavorite favs m, ?_⟩
  rfl

/-- C2: calling `toggle(m)` twice in succession restores `isFavorite(m.id)`
to the value it had before the first call. -/
theorem toggle_toggle_restores (favs : List Movie) (m : Movie) :
    isFavorite (handleToggleFavorite m (handleToggleFavorite m favs)) m.id
      = isFavorite favs m.id := by
  rw [isFavorite_handleToggleFavorite, isFavorite_handleToggleFavorite, Bool.not_not]

/-- When the id is absent, it is outside the id list. -/
theorem not_mem_ids_of_isFavorite_eq_false (favs : List Movie) (i : Int)
    (h : isFavorite favs i = false) : i ∉ favs.map Movie.id := by
  intro hmem
  rcases List.mem_map.mp hmem with ⟨fav, hfav, hid⟩
  have : isFavorite favs i = true := by
    simp only [isFavorite, List.any_eq_true]
    exact ⟨fav, hfav, by simp [hid]⟩
  rw [h] at this
  exact Bool.false_ne_true this

/-- One toggle step preserves the uniqueness invariant. -/
theorem uniqueIds_handleToggleFavorite (favs : List Movie) (m : Movie)
    (h : UniqueIds favs) : UniqueIds (handleToggleFavorite m favs) := by
  by_cases hf : isFavorite favs m.id = true
  · have hdef : handleToggleFavorite m favs = favs.filter (fun fav => fav.id != m.id) := by
      simp only [handleToggleFavorite, isFavorite] at *
      rw [if_pos hf]
    rw [hdef]
    unfold UniqueIds at *
    have hsub : List.Sublist ((favs.filter (fun fav => fav.id != m.id)).map Movie.id)
        (favs.map Movie.id) :=
      List.Sublist.map Movie.id (List.filter_sublist favs)
    exact List.Nodup.sublist hsub h
  · have hb : isFavorite favs m.id = false := by
      cases hx : isFavorite favs m.id
      · rfl
      · exact absurd hx hf
    have hdef : handleToggleFavorite m favs = favs ++ [m] := by
      simp only [handleToggleFavorite, isFavorite] at *
      rw [if_neg]
      rw [hb]
      simp
    rw [hdef]
    unfold UniqueIds at *
    rw [List.map_append, List.nodup_append]
    refine ⟨h, List.nodup_singleton _, ?_⟩
    intro i hi hi2
    have hi' : i = m.id := by simpa using hi2
    subst hi'
    exact not_mem_ids_of_isFavorite_eq_false favs m.id hb hi

/-- After removing every entry with id `m.id`, that id is no longer a
favorite. -/
theorem isFavorite_filter_ne (favs : List Movie) (m : Movie) :
    isFavorite (favs.filter (fun fav => fav.id != m.id)) m.id = false := by
  simp only [isFavorite, List.any_eq_false]
  intro fav hfav
  have hmem := List.of_mem_filter hfav
  simpa using hmem

/-- C3: the empty initial store is unique; the uniqueness invariant (at most
one entry per identifier) is preserved by every toggle; and when a
remove-then-add pair of toggles hits an id already present, the payload of
the later toggle is the one stored: the entries carrying that id afterwards
are exactly `[m]`. -/
theorem toggle_preserves_uniqueIds (favs : List Movie) (m : Movie)
    (h : UniqueIds favs) :
    UniqueIds initState.favorites
    ∧ UniqueIds (handleToggleFavorite m favs)
    ∧ (isFavorite favs m.id = true →
        (handleToggleFavorite m (handleToggleFavorite m favs)).filter
            (fun fav => fav.id == m.id) = [m]) := by
  refine ⟨List.nodup_nil, uniqueIds_handleToggleFavorite favs m h, ?_⟩
  intro hf
  have hdef1 : handleToggleFavorite m favs = favs.filter (fun fav => fav.id != m.id) := by
    simp only [handleToggleFavorite, isFavorite] at *
    rw [if_pos hf]
  have hf2 := isFavorite_filter_ne favs m
  have hdef2 : handleToggleFavorite m (favs.filter (fun fav => fav.id != m.id))
      = favs.filter (fun fav => fav.id != m.id) ++ [m] := by
    simp only [handleToggleFavorite, isFavorite] at *
    rw [if_neg]
    rw [hf2]
    simp
  rw [hdef1, hdef2, List.filter_append]
  have hleft : (favs.filter (fun fav => fav.id != m.id)).filter
      (fun fav => fav.id == m.id) = [] := by
    apply List.filter_eq_nil_iff.mpr
    intro fav hfav
    have hne := List.of_mem_filter hfav
    simp only [bne_iff_ne] at hne
    simp [hne]
  rw [hleft]
  simp

/-- Witness for C3 at a concrete state: `[{id 1, title "A"}]` is unique, and
toggling `{id 1, title "B"}` keeps uniqueness; toggling it twice leaves the
"B" payload as the sole entry for id 1. -/
theorem toggle_preserves_uniqueIds_witness :
    UniqueIds initState.favorites
    ∧ UniqueIds (handleToggleFavorite ⟨1, "B", none⟩ [⟨1, "A", none⟩])
    ∧ (isFavorite [(⟨1, "A", none⟩ : Movie)] (1 : Int) = true →
        (handleToggleFavorite ⟨1, "B", none⟩
            (handleToggleFavorite ⟨1, "B", none⟩ [⟨1, "A", none⟩])).filter
            (fun fav => fav.id == (1 : Int)) = [⟨1, "B", none⟩]) :=
  toggle_preserves_uniqueIds [⟨1, "A", none⟩] ⟨1, "B", none⟩ (by decide)

/-- C4 counterexample: the stored text `"5"` is valid JSON but not the
expected serialized form (its JSON value is the number 5, not an array),
yet the initializer returns that number unvalidated instead of the empty
array: `JSON.parse` succeeds, so the catch branch is never taken. -/
theorem favoritesInit_unvalidated_cex :
    jsonParseEnv "5" = Except.ok (JsValue.num 5)
    ∧ isJsonArray (JsValue.num 5) = false
    ∧ favoritesInit jsonParseEnv (some "5") = JsValue.num 5
    ∧ favoritesInit jsonParseEnv (some "5") ≠ JsValue.arr [] := by
  refine ⟨by simp [jsonParseEnv], rfl, by simp [favoritesInit, jsonParseEnv], ?_⟩
  intro hcontra
  rw [show favoritesInit jsonParseEnv (some "5") = JsValue.num 5 from by
        simp [favoritesInit, jsonParseEnv]] at hcontra
  exact JsValue.noConfusion hcontra

/-- C4 amended: initialization never fails — if the stored value is absent,
or the stored text makes `JSON.parse` raise (a syntax error, e.g.
`"not valid json"`), the initializer yields the empty array without raising;
a syntactically valid JSON value of the wrong shape is, however, returned
as-is without validation. -/
theorem favoritesInit_empty_on_absent_or_error
    (parse : String → Except String JsValue) (s e : String)
    (h : parse s = Except.error e) :
    favoritesInit parse none = JsValue.arr []
    ∧ favoritesInit parse (some s) = JsValue.arr [] := by
  refine ⟨rfl, ?_⟩
  by_cases hs : s = ""
  · subst hs; rfl
  · simp only [favoritesInit, if_neg hs, h]

/-- Witness for the amended C4: restoring from an absent value or from the
stored text `"not valid json"` (which raises a SyntaxError in `JSON.parse`)
yields the empty array. -/
theorem favoritesInit_empty_on_absent_or_error_witness :
    favoritesInit jsonParseEnv none = JsValue.arr []
    ∧ favoritesInit jsonParseEnv (some "not valid json") = JsValue.arr [] :=
  favoritesInit_empty_on_absent_or_error jsonParseEnv "not valid json" "SyntaxError"
    (by simp [jsonParseEnv])

/-- C5: after a toggle mutation, the whole list is serialized and written
under the fixed key `'movieFavorites'`; a write failure is caught (nothing
is raised) and leaves both the store and the in-memory list unchanged, and
on success the in-memory list is also left unchanged (no rollback). -/
theorem persist_after_toggle (stringify : List Movie → String) (m : Movie)
    (favs : List Movie) (kv : String → Option String) (writeFails : Bool) :
    (persistFavorites stringify (handleToggleFavorite m favs) kv writeFails).raised = false
    ∧ (persistFavorites stringify (handleToggleFavorite m favs) kv writeFails).favorites
        = handleToggleFavorite m favs
    ∧ (writeFails = false →
        (persistFavorites stringify (handleToggleFavorite m favs) kv writeFails).kv
            movieFavoritesKey = some (stringify (handleToggleFavorite m favs)))
    ∧ (writeFails = true →
        (persistFavorites stringify (handleToggleFavorite m favs) kv writeFails).kv = kv) := by
  constructor
  · cases writeFails <;> rfl
  constructor
  · cases writeFails <;> rfl
  constructor
  · intro h
    subst h
    simp [persistFavorites]
  · intro h
    subst h
    rfl

/-- C6 counterexample: the duplicated variant's `navigateToHome` (`App.jsx`
lines 196–198) only sets `currentPage`; applied to the state that is on the
detail page for movie 7, the selected movie identifier is NOT cleared, so
"goHome() yields the Catalog view with no selected movie identifier" fails
for this cited implementation of goHome. -/
theorem navigateToHome_retains_id_cex :
    ¬ ((navigateToHome detailState7).currentPage = "home"
        ∧ (navigateToHome detailState7).selectedMovieId = none) := by
  intro h
  exact Option.noConfusion h.2

/-- C6 amended: `handleBackToHome` (variant 1's goHome) unconditionally
yields the home ("Catalog") page with the selected movie identifier cleared;
the duplicated variant's `navigateToHome` also yields the home page but
leaves the selected movie identifier unchanged. -/
theorem goHome_spec (s : AppState) :
    (handleBackToHome s).currentPage = "home"
    ∧ (handleBackToHome s).selectedMovieId = none
    ∧ (navigateToHome s).currentPage = "home"
    ∧ (navigateToHome s).selectedMovieId = s.selectedMovieId :=
  ⟨rfl, rfl, rfl, rfl⟩

/-- C7 counterexample: starting from the initial Catalog state, after
`selectMovie(7)` then `goToFavorites()`, the state is NOT "Favorites with
the selected movie identifier discarded": `handleGoToFavorites` only sets
the page tag, so `selectedMovieId` is still `7`. -/
theorem goToFavorites_keeps_id_cex :
    ¬ ((handleGoToFavorites (handleSelectMovie 7 initState)).currentPage = "favorites"
        ∧ (handleGoToFavorites (handleSelectMovie 7 initState)).selectedMovieId = none) := by
  intro h
  exact Option.noConfusion h.2

/-- C7 amended: from the initial Catalog state, `selectMovie(7)` yields the
detail page with selected identifier 7; the subsequent `goToFavorites()`
yields the favorites page, but the selected identifier 7 is retained in
state (it is merely unread — no transition consults it for back-navigation),
not discarded. -/
theorem select_then_goToFavorites :
    (handleSelectMovie 7 initState).currentPage = "detail"
    ∧ (handleSelectMovie 7 initState).selectedMovieId = some 7
    ∧ (handleGoToFavorites (handleSelectMovie 7 initState)).currentPage = "favorites"
    ∧ (handleGoToFavorites (handleSelectMovie 7 initState)).selectedMovieId = some 7 :=
  ⟨rfl, rfl, rfl, rfl⟩

/-- C8: from any starting state, `selectMovie(id)` immediately followed by
`selectMovie(id2)` leaves the controller on the detail page with selected
identifier `id2` (last write wins; fetches run in `MovieDetail`'s local
state and never touch the navigation state). -/
theorem selectMovie_last_wins (s : AppState) (id id2 : Int) :
    (handleSelectMovie id2 (handleSelectMovie id s)).currentPage = "detail"
    ∧ (handleSelectMovie id2 (handleSelectMovie id s)).selectedMovieId = some id2 :=
  ⟨rfl, rfl⟩

/-- C9: frame conditions. `handleToggleFavorite` (which calls only
`setFavorites`) leaves the page tag and selected identifier unchanged, and
each navigation handler (which calls only `setCurrentPage` /
`setSelectedMovieId`) leaves the favorites list unchanged. -/
theorem frame_conditions (s : AppState) (m : Movie) (id : Int) :
    (appToggleFavorite m s).currentPage = s.currentPage
    ∧ (appToggleFavorite m s).selectedMovieId = s.selectedMovieId
    ∧ (handleSelectMovie id s).favorites = s.favorites
    ∧ (handleBackToHome s).favorites = s.favorites
    ∧ (handleGoToFavorites s).favorites = s.favorites :=
  ⟨rfl, rfl, rfl, rfl, rfl⟩

/-- C10: `selectMovie(0)` sets the page tag to detail, but the identifier 0
is falsy, so the detail view is not rendered and no detail fetch would be
issued for it. -/
theorem selectMovie_zero (s : AppState) :
    (handleSelectMovie 0 s).currentPage = "detail"
    ∧ detailRendered (handleSelectMovie 0 s) = false
    ∧ movieDetailFetchIssued 0 = false := by
  refine ⟨rfl, ?_, rfl⟩
  simp [detailRendered, handleSelectMovie, truthyId]

end MovieDiscovery
